import Mathlib

/-!
Verification of the local password-strength analyzer
(the `analyzePasswordLocally` pipeline and its helper functions:
`calculateScore`, `getStrengthLevel`, `generateSuggestions`,
`checkCommonWords`, `checkKeyboardPatterns`, `calculateEntropy`,
`getCharsetSize`).

Strings are modelled through their character lists; the JavaScript
regular-expression class tests `[A-Z]`, `[a-z]`, `\d`, `[^A-Za-z0-9]`
become per-character code-point range tests; `Math.log2`/`Math.pow`
are modelled over the real numbers.
-/

namespace PSA

/-- Membership in the regex class `[a-z]`. -/
def isLowerCh (c : Char) : Bool := 97 ≤ c.toNat && c.toNat ≤ 122

/-- Membership in the regex class `[A-Z]`. -/
def isUpperCh (c : Char) : Bool := 65 ≤ c.toNat && c.toNat ≤ 90

/-- Membership in the regex class `\d`, i.e. `[0-9]`. -/
def isDigitCh (c : Char) : Bool := 48 ≤ c.toNat && c.toNat ≤ 57

/-- Membership in the regex class `[^A-Za-z0-9]`. -/
def isSymbolCh (c : Char) : Bool := !(isUpperCh c || isLowerCh c || isDigitCh c)

/-- `/[A-Z]/.test(password)` -/
def hasUppercase (p : String) : Bool := p.data.any isUpperCh

/-- `/[a-z]/.test(password)` -/
def hasLowercase (p : String) : Bool := p.data.any isLowerCh

/-- `/\d/.test(password)` -/
def hasDigits (p : String) : Bool := p.data.any isDigitCh

/-- `/[^A-Za-z0-9]/.test(password)` -/
def hasSymbols (p : String) : Bool := p.data.any isSymbolCh

/-- ASCII case folding of one character, as `String.prototype.toLowerCase`
acts on the ASCII range. -/
def jsToLower (c : Char) : Char :=
  if 65 ≤ c.toNat && c.toNat ≤ 90 then Char.ofNat (c.toNat + 32) else c

/-- `password.toLowerCase()` as a character list. -/
def jsToLowerData (p : String) : List Char := p.data.map jsToLower

/-- `hay.includes(needle)` on the lower-cased character list:
`needle` occurs as a contiguous infix of `hay`. -/
def includesWord (hay : List Char) (needle : String) : Bool :=
  decide (needle.data <:+: hay)

/-- The fixed list in `checkCommonWords`. -/
def commonWords : List String :=
  ["password", "123456", "qwerty", "admin", "login", "welcome"]

/-- `checkCommonWords`: some common word occurs in the lower-cased password. -/
def checkCommonWords (password : String) : Bool :=
  commonWords.any (fun word => includesWord (jsToLowerData password) word)

/-- The fixed list in `checkKeyboardPatterns`. -/
def keyboardPatterns : List String := ["qwerty", "asdf", "1234", "abcd"]

/-- `checkKeyboardPatterns`: some keyboard pattern occurs in the
lower-cased password. -/
def checkKeyboardPatterns (password : String) : Bool :=
  keyboardPatterns.any (fun pat => includesWord (jsToLowerData password) pat)

/-- The `features` record computed in `analyzePasswordLocally`. -/
structure Features where
  length : Nat
  hasUppercase : Bool
  hasLowercase : Bool
  hasDigits : Bool
  hasSymbols : Bool
  hasCommonWords : Bool
  hasKeyboardPatterns : Bool
deriving DecidableEq, Repr

/-- The feature-extraction part of `analyzePasswordLocally`. -/
def extractFeatures (password : String) : Features where
  length := password.data.length
  hasUppercase := hasUppercase password
  hasLowercase := hasLowercase password
  hasDigits := hasDigits password
  hasSymbols := hasSymbols password
  hasCommonWords := checkCommonWords password
  hasKeyboardPatterns := checkKeyboardPatterns password

/-- `calculateScore`: weighted sum of the satisfied conditions, clamped
at 100 by `Math.min(score, 100)`. -/
def calculateScore (features : Features) : Nat :=
  min
    ((if 8 ≤ features.length then 20 else 0) +
     (if 12 ≤ features.length then 10 else 0) +
     (if features.hasUppercase then 15 else 0) +
     (if features.hasLowercase then 15 else 0) +
     (if features.hasDigits then 15 else 0) +
     (if features.hasSymbols then 20 else 0) +
     (if !features.hasCommonWords then 15 else 0) +
     (if !features.hasKeyboardPatterns then 10 else 0))
    100

/-- The strength labels of the analyzer. -/
inductive Strength where
  | weak
  | moderate
  | strong
deriving DecidableEq, Repr

/-- `getStrengthLevel`: threshold the score at 40 and 70. -/
def getStrengthLevel (score : Nat) : Strength :=
  if score < 40 then Strength.weak
  else if score < 70 then Strength.moderate
  else Strength.strong

/-- `generateSuggestions`: push one corrective message per failed
condition, in the source's fixed order. -/
def generateSuggestions (features : Features) : List String :=
  (if features.length < 8 then ["Use at least 8 characters"] else []) ++
  (if !features.hasUppercase then ["Add uppercase letters"] else []) ++
  (if !features.hasLowercase then ["Add lowercase letters"] else []) ++
  (if !features.hasDigits then ["Include numbers"] else []) ++
  (if !features.hasSymbols then ["Add special characters (!@#$%^&*)"] else []) ++
  (if features.hasCommonWords then ["Avoid common words"] else []) ++
  (if features.hasKeyboardPatterns then ["Avoid keyboard patterns (qwerty, 123)"] else [])

/-- `getCharsetSize`: sum of the sizes of the character classes present. -/
def getCharsetSize (password : String) : Nat :=
  (if hasLowercase password then 26 else 0) +
  (if hasUppercase password then 26 else 0) +
  (if hasDigits password then 10 else 0) +
  (if hasSymbols password then 32 else 0)

/-- `calculateEntropy`: `Math.log2(Math.pow(charset, password.length))`,
with `Math.log2`/`Math.pow` read over the reals (`0 ^ 0 = 1`, matching
`Math.pow(0, 0) = 1`). -/
noncomputable def calculateEntropy (password : String) : ℝ :=
  Real.logb 2 ((getCharsetSize password : ℝ) ^ password.data.length)

/-- The analysis record assembled by `analyzePasswordLocally`. -/
structure PasswordAnalysis where
  strength : Strength
  score : Nat
  entropy : ℝ
  suggestions : List String
  features : Features

/-- `analyzePasswordLocally` as a pure function of the password. -/
noncomputable def analyzePasswordLocally (password : String) : PasswordAnalysis :=
  let features := extractFeatures password
  { strength := getStrengthLevel (calculateScore features)
    score := calculateScore features
    entropy := calculateEntropy password
    suggestions := generateSuggestions features
    features := features }

/-! ## Helper lemmas -/

/-- Every character lies in at least one of the four classes. -/
theorem char_class_total (c : Char) :
    isLowerCh c || isUpperCh c || isDigitCh c || isSymbolCh c = true := by
  cases hU : isUpperCh c <;> cases hL : isLowerCh c <;> cases hD : isDigitCh c <;>
    simp [isSymbolCh, hU, hL, hD]

/-- A nonempty password has charset size at least 10. -/
theorem ten_le_getCharsetSize (p : String) (h : p.data ≠ []) :
    10 ≤ getCharsetSize p := by
  obtain ⟨c, cs, hcs⟩ : ∃ c cs, p.data = c :: cs := by
    cases hd : p.data with
    | nil => exact absurd hd h
    | cons c cs => exact ⟨c, cs, rfl⟩
  have hmem : c ∈ p.data := by rw [hcs]; exact List.mem_cons_self c cs
  have htot := char_class_total c
  have hclass : isLowerCh c = true ∨ isUpperCh c = true ∨ isDigitCh c = true ∨
      isSymbolCh c = true := by
    simpa [Bool.or_eq_true, or_assoc] using htot
  unfold getCharsetSize
  rcases hclass with hc | hc | hc | hc
  · have : hasLowercase p = true := by
      simp only [hasLowercase, List.any_eq_true]; exact ⟨c, hmem, hc⟩
    rw [this]; simp only [if_true]; omega
  · have : hasUppercase p = true := by
      simp only [hasUppercase, List.any_eq_true]; exact ⟨c, hmem, hc⟩
    rw [this]; simp only [if_true]
    cases hasLowercase p <;> cases hasDigits p <;> cases hasSymbols p <;> simp
  · have : hasDigits p = true := by
      simp only [hasDigits, List.any_eq_true]; exact ⟨c, hmem, hc⟩
    rw [this]; simp only [if_true]
    cases hasLowercase p <;> cases hasUppercase p <;> cases hasSymbols p <;> simp
  · have : hasSymbols p = true := by
      simp only [hasSymbols, List.any_eq_true]; exact ⟨c, hmem, hc⟩
    rw [this]; simp only [if_true]
    cases hasLowercase p <;> cases hasUppercase p <;> cases hasDigits p <;> simp

/-! ## Claims -/

/-- C1: for every password, the rule-based score of its features lies
in the interval `[0, 100]`: the weights are non-negative and the sum is
clamped from above at 100. -/
theorem calculateScore_mem_Icc (p : String) :
    0 ≤ calculateScore (extractFeatures p) ∧
    calculateScore (extractFeatures p) ≤ 100 :=
  ⟨Nat.zero_le _, Nat.min_le_right _ 100⟩

/-- C2: `getStrengthLevel` returns `weak` exactly on scores below 40,
`moderate` exactly on scores in `[40, 70)`, and `strong` exactly on
scores of 70 and above. -/
theorem getStrengthLevel_buckets (s : Nat) :
    (getStrengthLevel s = Strength.weak ↔ s < 40) ∧
    (getStrengthLevel s = Strength.moderate ↔ 40 ≤ s ∧ s < 70) ∧
    (getStrengthLevel s = Strength.strong ↔ 70 ≤ s) := by
  unfold getStrengthLevel
  split_ifs with h1 h2 <;> refine ⟨?_, ?_, ?_⟩ <;> simp <;> omega

/-- Unfolding `calculateEntropy` through `logb` of a power. -/
theorem calculateEntropy_eq_mul (p : String) :
    calculateEntropy p = (p.data.length : ℝ) * Real.logb 2 (getCharsetSize p : ℝ) := by
  unfold calculateEntropy
  rw [Real.logb_pow]

/-- C3: for every password, the computed entropy equals
`length * log2 (max charsetSize 1)`, and the empty password has
entropy 0 (a finite real, not `-infinity` or `NaN`). -/
theorem calculateEntropy_formula (p : String) :
    calculateEntropy p =
      (p.data.length : ℝ) * Real.logb 2 ((max (getCharsetSize p) 1 : ℕ) : ℝ) ∧
    calculateEntropy "" = 0 := by
  constructor
  · rcases eq_or_ne p.data [] with hnil | hnil
    · have hl : p.data.length = 0 := by rw [hnil]; rfl
      rw [calculateEntropy_eq_mul, hl]
      simp
    · have h10 := ten_le_getCharsetSize p hnil
      have hmax : max (getCharsetSize p) 1 = getCharsetSize p := by omega
      rw [hmax, calculateEntropy_eq_mul]
  · have h0 : getCharsetSize "" = 0 := by decide
    have hl : ("" : String).data.length = 0 := by decide
    rw [calculateEntropy_eq_mul, h0, hl]
    simp

/-- One conditional weight is monotone under a boolean implication. -/
theorem ite_weight_mono (a b : Bool) (h : a = true → b = true) (w : Nat) :
    (if a then w else 0) ≤ (if b then w else 0) := by
  split_ifs with h1 h2 <;> simp_all

/-- Charset size is monotone in the set of present character classes. -/
theorem getCharsetSize_mono (p q : String)
    (hL : hasLowercase p = true → hasLowercase q = true)
    (hU : hasUppercase p = true → hasUppercase q = true)
    (hD : hasDigits p = true → hasDigits q = true)
    (hS : hasSymbols p = true → hasSymbols q = true) :
    getCharsetSize p ≤ getCharsetSize q := by
  unfold getCharsetSize
  have t1 := ite_weight_mono _ _ hL 26
  have t2 := ite_weight_mono _ _ hU 26
  have t3 := ite_weight_mono _ _ hD 10
  have t4 := ite_weight_mono _ _ hS 32
  omega

/-- C7: at fixed length, a password exhibiting a superset of the
character classes never has smaller computed entropy (in particular,
adding one previously-unused class never decreases it). -/
theorem calculateEntropy_mono_classes (p q : String)
    (hlen : p.data.length = q.data.length)
    (hL : hasLowercase p = true → hasLowercase q = true)
    (hU : hasUppercase p = true → hasUppercase q = true)
    (hD : hasDigits p = true → hasDigits q = true)
    (hS : hasSymbols p = true → hasSymbols q = true) :
    calculateEntropy p ≤ calculateEntropy q := by
  have hcs := getCharsetSize_mono p q hL hU hD hS
  rw [calculateEntropy_eq_mul, calculateEntropy_eq_mul, hlen]
  rcases Nat.eq_zero_or_pos q.data.length with h0 | hpos
  · simp [h0]
  · have hp : p.data ≠ [] := by
      intro hx
      rw [hx] at hlen
      simp only [List.length_nil] at hlen
      omega
    have h10 := ten_le_getCharsetSize p hp
    have hpos' : (0 : ℝ) < (getCharsetSize p : ℝ) := by
      exact_mod_cast Nat.lt_of_lt_of_le (by norm_num) h10
    apply mul_le_mul_of_nonneg_left
    · exact Real.logb_le_logb_of_le (by norm_num) hpos' (by exact_mod_cast hcs)
    · exact Nat.cast_nonneg _

/-- Witness for C7 at the concrete pair `"aaaa"` / `"aa1b"`. -/
theorem calculateEntropy_mono_classes_witness :
    ("aaaa" : String).data.length = ("aa1b" : String).data.length ∧
    calculateEntropy "aaaa" ≤ calculateEntropy "aa1b" :=
  ⟨by decide,
   calculateEntropy_mono_classes "aaaa" "aa1b" (by decide) (by decide)
     (by decide) (by decide) (by decide)⟩

/-- The suggestion messages in the fixed order in which
`generateSuggestions` evaluates its conditions, which is also the order
in which `calculateScore` evaluates the corresponding weights. -/
def orderedMessages : List String :=
  ["Use at least 8 characters", "Add uppercase letters", "Add lowercase letters",
   "Include numbers", "Add special characters (!@#$%^&*)", "Avoid common words",
   "Avoid keyboard patterns (qwerty, 123)"]

/-- Membership in a conditional singleton. -/
theorem mem_ite_singleton {c : Prop} [Decidable c] {m msg : String} :
    m ∈ (if c then [msg] else []) ↔ c ∧ m = msg := by
  split <;> simp_all

/-- The suggestion list only contains the fixed messages, in order. -/
theorem generateSuggestions_sublist (f : Features) :
    (generateSuggestions f).Sublist orderedMessages := by
  have s1 : (if f.length < 8 then ["Use at least 8 characters"] else []).Sublist
      ["Use at least 8 characters"] := by split <;> simp
  have s2 : (if !f.hasUppercase then ["Add uppercase letters"] else []).Sublist
      ["Add uppercase letters"] := by split <;> simp
  have s3 : (if !f.hasLowercase then ["Add lowercase letters"] else []).Sublist
      ["Add lowercase letters"] := by split <;> simp
  have s4 : (if !f.hasDigits then ["Include numbers"] else []).Sublist
      ["Include numbers"] := by split <;> simp
  have s5 : (if !f.hasSymbols then ["Add special characters (!@#$%^&*)"] else []).Sublist
      ["Add special characters (!@#$%^&*)"] := by split <;> simp
  have s6 : (if f.hasCommonWords then ["Avoid common words"] else []).Sublist
      ["Avoid common words"] := by split <;> simp
  have s7 : (if f.hasKeyboardPatterns then
      ["Avoid keyboard patterns (qwerty, 123)"] else []).Sublist
      ["Avoid keyboard patterns (qwerty, 123)"] := by split <;> simp
  unfold generateSuggestions orderedMessages
  exact ((((((s1.append s2).append s3).append s4).append s5).append s6).append s7)

/-- The minimum-length message appears iff the length condition fails. -/
theorem mem_sugg_length (f : Features) :
    f.length < 8 ↔ "Use at least 8 characters" ∈ generateSuggestions f := by
  unfold generateSuggestions
  simp [List.mem_append, mem_ite_singleton]

/-- The uppercase message appears iff uppercase is absent. -/
theorem mem_sugg_upper (f : Features) :
    f.hasUppercase = false ↔ "Add uppercase letters" ∈ generateSuggestions f := by
  unfold generateSuggestions
  simp [List.mem_append, mem_ite_singleton]

/-- The lowercase message appears iff lowercase is absent. -/
theorem mem_sugg_lower (f : Features) :
    f.hasLowercase = false ↔ "Add lowercase letters" ∈ generateSuggestions f := by
  unfold generateSuggestions
  simp [List.mem_append, mem_ite_singleton]

/-- The digits message appears iff digits are absent. -/
theorem mem_sugg_digits (f : Features) :
    f.hasDigits = false ↔ "Include numbers" ∈ generateSuggestions f := by
  unfold generateSuggestions
  simp [List.mem_append, mem_ite_singleton]

/-- The symbols message appears iff symbols are absent. -/
theorem mem_sugg_symbols (f : Features) :
    f.hasSymbols = false ↔
      "Add special characters (!@#$%^&*)" ∈ generateSuggestions f := by
  unfold generateSuggestions
  simp [List.mem_append, mem_ite_singleton]

/-- The common-words message appears iff a common word is present. -/
theorem mem_sugg_common (f : Features) :
    f.hasCommonWords = true ↔ "Avoid common words" ∈ generateSuggestions f := by
  unfold generateSuggestions
  simp [List.mem_append, mem_ite_singleton]

/-- The keyboard-patterns message appears iff a pattern is present. -/
theorem mem_sugg_keyboard (f : Features) :
    f.hasKeyboardPatterns = true ↔
      "Avoid keyboard patterns (qwerty, 123)" ∈ generateSuggestions f := by
  unfold generateSuggestions
  simp [List.mem_append, mem_ite_singleton]

/-- The suggestion list is complete and ordered for the seven
suggestion-generating conditions. -/
theorem generateSuggestions_spec (f : Features) :
    (generateSuggestions f).Sublist orderedMessages ∧
    (f.length < 8 ↔ "Use at least 8 characters" ∈ generateSuggestions f) ∧
    (f.hasUppercase = false ↔ "Add uppercase letters" ∈ generateSuggestions f) ∧
    (f.hasLowercase = false ↔ "Add lowercase letters" ∈ generateSuggestions f) ∧
    (f.hasDigits = false ↔ "Include numbers" ∈ generateSuggestions f) ∧
    (f.hasSymbols = false ↔ "Add special characters (!@#$%^&*)" ∈ generateSuggestions f) ∧
    (f.hasCommonWords = true ↔ "Avoid common words" ∈ generateSuggestions f) ∧
    (f.hasKeyboardPatterns = true ↔
      "Avoid keyboard patterns (qwerty, 123)" ∈ generateSuggestions f) :=
  ⟨generateSuggestions_sublist f, mem_sugg_length f, mem_sugg_upper f,
   mem_sugg_lower f, mem_sugg_digits f, mem_sugg_symbols f,
   mem_sugg_common f, mem_sugg_keyboard f⟩

/-- C4 (counterexample to the claim as stated): for the password
`"Xy9!mQpw"` the length-12 condition fails to earn its 10-point weight
in `calculateScore`, yet the suggestions list is empty, so no
corrective entry for that condition exists. -/
theorem generateSuggestions_omits_length12 :
    (extractFeatures "Xy9!mQpw").length < 12 ∧
    generateSuggestions (extractFeatures "Xy9!mQpw") = [] := by
  decide

/-- C4 (amended): the suggestions list contains a corrective entry
exactly for each failed condition among the seven suggestion-generating
conditions — every scoring condition of `calculateScore` except the
length-12 bonus — and the entries appear in the fixed evaluation
order (the list is a sublist of the ordered message list). -/
theorem generateSuggestions_complete_ordered (p : String) :
    (generateSuggestions (extractFeatures p)).Sublist orderedMessages ∧
    ((extractFeatures p).length < 8 ↔
      "Use at least 8 characters" ∈ generateSuggestions (extractFeatures p)) ∧
    ((extractFeatures p).hasUppercase = false ↔
      "Add uppercase letters" ∈ generateSuggestions (extractFeatures p)) ∧
    ((extractFeatures p).hasLowercase = false ↔
      "Add lowercase letters" ∈ generateSuggestions (extractFeatures p)) ∧
    ((extractFeatures p).hasDigits = false ↔
      "Include numbers" ∈ generateSuggestions (extractFeatures p)) ∧
    ((extractFeatures p).hasSymbols = false ↔
      "Add special characters (!@#$%^&*)" ∈ generateSuggestions (extractFeatures p)) ∧
    ((extractFeatures p).hasCommonWords = true ↔
      "Avoid common words" ∈ generateSuggestions (extractFeatures p)) ∧
    ((extractFeatures p).hasKeyboardPatterns = true ↔
      "Avoid keyboard patterns (qwerty, 123)" ∈ generateSuggestions (extractFeatures p)) :=
  generateSuggestions_spec (extractFeatures p)

/-- C5 (counterexample to the claim as stated): `"password123"` does
not land in the `weak` bucket. -/
theorem password123_not_weak :
    getStrengthLevel (calculateScore (extractFeatures "password123")) ≠ Strength.weak := by
  decide

/-- C5 (amended): for `"password123"` the feedback includes the
common-words suggestion and the strength bucket is `moderate`
(the score is 60). -/
theorem password123_feedback_and_bucket :
    "Avoid common words" ∈ generateSuggestions (extractFeatures "password123") ∧
    calculateScore (extractFeatures "password123") = 60 ∧
    getStrengthLevel (calculateScore (extractFeatures "password123")) = Strength.moderate := by
  decide

/-- C6 (counterexample to the claim as stated): the empty password does
not score 0 — the absent-common-words and absent-keyboard-patterns
bonuses still apply. -/
theorem emptyPassword_score_not_zero :
    calculateScore (extractFeatures "") ≠ 0 := by
  decide

/-- C6 (amended): the empty password evaluates without error to
score 25, strength `weak`, and feedback containing the minimum-length
suggestion. -/
theorem emptyPassword_analysis :
    calculateScore (extractFeatures "") = 25 ∧
    getStrengthLevel (calculateScore (extractFeatures "")) = Strength.weak ∧
    "Use at least 8 characters" ∈ generateSuggestions (extractFeatures "") := by
  decide

/-- If the suggestions list is empty, every scoring weight except the
length-12 bonus is earned, and the clamp takes the score to 100. -/
theorem suggestions_empty_forces (f : Features) (h : generateSuggestions f = []) :
    calculateScore f = 100 ∧ getStrengthLevel (calculateScore f) = Strength.strong := by
  have nomem : ∀ m : String, m ∉ generateSuggestions f := by
    rw [h]
    intro m hm
    exact absurd hm (List.not_mem_nil m)
  have c1 : ¬ f.length < 8 :=
    fun hc => nomem _ ((mem_sugg_length f).mp hc)
  have hU : f.hasUppercase = true := by
    rcases Bool.eq_false_or_eq_true f.hasUppercase with hc | hc
    · exact hc
    · exact absurd ((mem_sugg_upper f).mp hc) (nomem _)
  have hL : f.hasLowercase = true := by
    rcases Bool.eq_false_or_eq_true f.hasLowercase with hc | hc
    · exact hc
    · exact absurd ((mem_sugg_lower f).mp hc) (nomem _)
  have hD : f.hasDigits = true := by
    rcases Bool.eq_false_or_eq_true f.hasDigits with hc | hc
    · exact hc
    · exact absurd ((mem_sugg_digits f).mp hc) (nomem _)
  have hS : f.hasSymbols = true := by
    rcases Bool.eq_false_or_eq_true f.hasSymbols with hc | hc
    · exact hc
    · exact absurd ((mem_sugg_symbols f).mp hc) (nomem _)
  have hC : f.hasCommonWords = false := by
    rcases Bool.eq_false_or_eq_true f.hasCommonWords with hc | hc
    · exact absurd ((mem_sugg_common f).mp hc) (nomem _)
    · exact hc
  have hK : f.hasKeyboardPatterns = false := by
    rcases Bool.eq_false_or_eq_true f.hasKeyboardPatterns with hc | hc
    · exact absurd ((mem_sugg_keyboard f).mp hc) (nomem _)
    · exact hc
  have hscore : calculateScore f = 100 := by
    unfold calculateScore
    rw [if_pos (by omega : 8 ≤ f.length)]
    rcases le_or_lt 12 f.length with h12 | h12
    · rw [if_pos h12]
      simp [hU, hL, hD, hS, hC, hK]
    · rw [if_neg (by omega : ¬ 12 ≤ f.length)]
      simp [hU, hL, hD, hS, hC, hK]
  exact ⟨hscore, by rw [hscore]; decide⟩

/-- C10: for every password, if the generated suggestions list is empty
then the rule-based score is exactly 100 and the strength label is
`strong`. -/
theorem suggestions_empty_max_score (p : String)
    (h : generateSuggestions (extractFeatures p) = []) :
    calculateScore (extractFeatures p) = 100 ∧
    getStrengthLevel (calculateScore (extractFeatures p)) = Strength.strong :=
  suggestions_empty_forces (extractFeatures p) h

/-- Witness for C10 at the concrete password `"Xk9!mQpz"`. -/
theorem suggestions_empty_max_score_witness :
    generateSuggestions (extractFeatures "Xk9!mQpz") = [] ∧
    (calculateScore (extractFeatures "Xk9!mQpz") = 100 ∧
     getStrengthLevel (calculateScore (extractFeatures "Xk9!mQpz")) = Strength.strong) :=
  ⟨by decide, suggestions_empty_max_score "Xk9!mQpz" (by decide)⟩

/-- Numeric rank of a strength label under the order
`weak < moderate < strong`. -/
def strengthRank : Strength → Nat
  | Strength.weak => 0
  | Strength.moderate => 1
  | Strength.strong => 2

/-- C8: the strength label is a non-decreasing function of the score. -/
theorem getStrengthLevel_mono (s t : Nat) (h : s ≤ t) :
    strengthRank (getStrengthLevel s) ≤ strengthRank (getStrengthLevel t) := by
  unfold getStrengthLevel
  split_ifs <;> simp [strengthRank] <;> omega

/-- Witness for C8 at the concrete scores 30 and 80. -/
theorem getStrengthLevel_mono_witness :
    30 ≤ 80 ∧ strengthRank (getStrengthLevel 30) ≤ strengthRank (getStrengthLevel 80) :=
  ⟨by decide, getStrengthLevel_mono 30 80 (by decide)⟩

/-- C9: the analysis is a deterministic function of the password alone:
two runs on the same password agree in every field. -/
theorem analyzePasswordLocally_deterministic (p q : String) (h : p = q) :
    (analyzePasswordLocally p).features = (analyzePasswordLocally q).features ∧
    (analyzePasswordLocally p).score = (analyzePasswordLocally q).score ∧
    (analyzePasswordLocally p).strength = (analyzePasswordLocally q).strength ∧
    (analyzePasswordLocally p).suggestions = (analyzePasswordLocally q).suggestions ∧
    (analyzePasswordLocally p).entropy = (analyzePasswordLocally q).entropy := by
  subst h
  exact ⟨rfl, rfl, rfl, rfl, rfl⟩

/-- Witness for C9 at the concrete password `"abc"`. -/
theorem analyzePasswordLocally_deterministic_witness :
    ("abc" : String) = "abc" ∧
    ((analyzePasswordLocally "abc").features = (analyzePasswordLocally "abc").features ∧
     (analyzePasswordLocally "abc").score = (analyzePasswordLocally "abc").score ∧
     (analyzePasswordLocally "abc").strength = (analyzePasswordLocally "abc").strength ∧
     (analyzePasswordLocally "abc").suggestions = (analyzePasswordLocally "abc").suggestions ∧
     (analyzePasswordLocally "abc").entropy = (analyzePasswordLocally "abc").entropy) :=
  ⟨rfl, analyzePasswordLocally_deterministic "abc" "abc" rfl⟩

end PSA
